import Mathlib

/-!
Verification of the per-connection lifecycle manager and handshake state
machine of the CodeChat editor server, as implemented in
`src/server/src/webserver/vscode.rs` (`vscode_ide_websocket`).

The embedding follows the source file directly.  Collaborator types and
helpers that the source imports from its surrounding crate
(`EditorMessage`, `IdeType`, `AppState` fields, `send_response`,
`client_websocket`) are not part of the given source; those definitions
are modelled from the specification and are marked as such in their doc
comments.
-/

namespace VSCodeWs

/-- Modelled from the spec: the IDE-type tag carried by an `Opened`
message.  The source matches on `IdeType::VSCode(is_self_hosted)` and has
a wildcard arm for every other kind; other kinds are modelled by `Other`
carrying their debug rendering. -/
inductive IdeType where
  | VSCode (is_self_hosted : Bool)
  | Other (name : String)
deriving DecidableEq

/-- Modelled from the spec: the debug rendering (`{ide_type:?}`) of an
IDE type, used inside the "Invalid IDE type" error text.  Only the fixed
leading text of that error matters to the claims. -/
def reprIdeType : IdeType → String
  | .VSCode b => "VSCode(" ++ (if b then "true" else "false") ++ ")"
  | .Other name => name

/-- Modelled from the spec: the closed set of message-contents variants
relevant to the core.  `Update` stands for the wider catalogue of
variants that the handshake only needs to recognise as "not `Opened`". -/
inductive EditorMessageContents where
  | Opened (ide_type : IdeType)
  | ClientHtml (payload : String)
  | Result (text : String)
  | Closed
  | Update (payload : String)
deriving DecidableEq

/-- Modelled from the spec: the envelope carrying a message identifier
alongside its contents. -/
structure EditorMessage where
  id : Nat
  message : EditorMessageContents
deriving DecidableEq

/-- Modelled from the spec: the debug rendering (`{message:?}`) of a
whole message, used inside the "Unexpected message" error text.  Only the
fixed leading text of that error matters to the claims. -/
def reprContents : EditorMessageContents → String
  | .Opened t => "Opened(" ++ reprIdeType t ++ ")"
  | .ClientHtml s => "ClientHtml(" ++ s ++ ")"
  | .Result s => "Result(" ++ s ++ ")"
  | .Closed => "Closed"
  | .Update s => "Update(" ++ s ++ ")"

/-- Modelled from the spec: debug rendering of an `EditorMessage`. -/
def reprEditorMessage (m : EditorMessage) : String :=
  "EditorMessage \x7b id: " ++ toString m.id ++ ", message: " ++ reprContents m.message ++ " \x7d"

/-- Modelled from the spec: `send_response(&to_ide_tx, id, text)` places
on the outbound queue a `Result` message whose text is `text`, correlated
to `id`. -/
def send_response (id : Nat) (text : String) : EditorMessage :=
  { id := id, message := .Result text }

/-- Terminal states of the handshake task, as named by the spec:
`Ready` for a completed handshake, `Terminated` for every exit through a
failure branch (including the silent channel-closed exit). -/
inductive HandshakeEnd where
  | Ready
  | Terminated
deriving DecidableEq

/-- The observable behaviour of one run of the handshake task: the
messages sent on the IDE-side outbound queue in order, the error-log
lines in order, and the terminal state reached. -/
structure HandshakeRun where
  sent : List EditorMessage
  logs : List String
  finish : HandshakeEnd
deriving DecidableEq

/-- The handshake task spawned on the Create path
(`src/server/src/webserver/vscode.rs`, lines 115-170), as a function of
its two inputs: the first message received from the IDE-side inbound
queue (`none` models `recv()` returning `None` because the channel
closed), and the outcome of the external browser-launch collaborator
(`open::that_detached`), with the error's display text when it fails. -/
def handshake_task (first : Option EditorMessage) (launch : Except String Unit) :
    HandshakeRun :=
  match first with
  | none =>
    { sent := [], logs := ["IDE websocket received no data."], finish := .Terminated }
  | some message =>
    match message.message with
    | .Opened ide_type =>
      match ide_type with
      | .VSCode is_self_hosted =>
        if is_self_hosted then
          { sent := [send_response message.id "",
                     { id := 0, message := .ClientHtml "testing" }],
            logs := [], finish := .Ready }
        else
          match launch with
          | .error err =>
            let msg := "Unable to open web browser: " ++ err
            { sent := [send_response message.id msg,
                       { id := 0, message := .Closed }],
              logs := [msg], finish := .Terminated }
          | .ok _ =>
            { sent := [send_response message.id ""], logs := [], finish := .Ready }
      | .Other _ =>
        let msg := "Invalid IDE type: " ++ reprIdeType ide_type
        { sent := [send_response message.id msg,
                   { id := 0, message := .Closed }],
          logs := [msg], finish := .Terminated }
    | _ =>
      let msg := "Unexpected message " ++ reprEditorMessage message
      { sent := [send_response message.id msg,
                 { id := 0, message := .Closed }],
        logs := [msg], finish := .Terminated }

/-- Modelled from the spec: one endpoint's pair of bounded channels.  The
source stores the sending end of the from-websocket channel and the
receiving end of the to-websocket channel; channels are represented here
by the identifiers under which they were allocated. -/
structure WebsocketQueues where
  from_websocket_tx : Nat
  to_websocket_rx : Nat
deriving DecidableEq

/-- Membership test on the in-use set (`HashSet::contains`). -/
def setContains (s : List String) (k : String) : Bool :=
  match s with
  | [] => false
  | k' :: rest => if k' = k then true else setContains rest k

/-- Lookup in a queue-pair map (`HashMap::get` / `contains_key`). -/
def mapLookup (m : List (String × WebsocketQueues)) (k : String) :
    Option WebsocketQueues :=
  match m with
  | [] => none
  | (k', v) :: rest => if k' = k then some v else mapLookup rest k

/-- Modelled from the spec: the process-wide shared state reached through
`app_state` — the in-use set `vscode_connection_id`, the IDE-side and
client-side queue-pair maps, and a counter from which fresh channels are
allocated (each `mpsc::channel(10)` call yields the next identifier). -/
structure AppState where
  vscode_connection_id : List String
  vscode_ide_queues : List (String × WebsocketQueues)
  vscode_client_queues : List (String × WebsocketQueues)
  next_channel : Nat
deriving DecidableEq

/-- The empty shared state the server starts from. -/
def AppState.initial : AppState :=
  { vscode_connection_id := [], vscode_ide_queues := [],
    vscode_client_queues := [], next_channel := 0 }

/-- The caller-visible response of the attach endpoint: either
`Err(ErrorBadRequest(msg))`, or the upgraded stream produced by
`client_websocket` bridging the transport to the IDE-side queue-pair map
that was passed to it. -/
inductive AttachResponse where
  | rejected (msg : String)
  | bridged (ide_queues : List (String × WebsocketQueues))
deriving DecidableEq

/-- The outcome of one sequential run of the attach operation: the
response, the shared state afterwards, and whether a handshake task was
spawned. -/
structure AttachResult where
  response : AttachResponse
  state : AppState
  spawned : Bool
deriving DecidableEq

/-- The attach operation `vscode_ide_websocket`
(`src/server/src/webserver/vscode.rs`, lines 42-180), run sequentially
(no interleaving with other attaches).  `none` models a panic from a
failed `assert!(... .insert(..).is_none())`.  The three cases follow the
source: in-use set hit, IDE-queue-map hit, then creation of fresh
IDE-side and client-side queue pairs, spawn of the handshake task, and
bridging via `client_websocket`. -/
def vscode_ide_websocket (connection_id_str : String) (s : AppState) :
    Option AttachResult :=
  if setContains s.vscode_connection_id connection_id_str then
    some { response := .rejected ("Connection ID " ++ connection_id_str ++ " already in use."),
           state := s, spawned := false }
  else if (mapLookup s.vscode_ide_queues connection_id_str).isSome then
    some { response := .bridged s.vscode_ide_queues, state := s, spawned := false }
  else
    let from_ide := s.next_channel
    let to_ide := s.next_channel + 1
    match mapLookup s.vscode_ide_queues connection_id_str with
    | some _ => none
    | none =>
      let ide_queues' :=
        (connection_id_str,
          ({ from_websocket_tx := from_ide, to_websocket_rx := to_ide } : WebsocketQueues))
          :: s.vscode_ide_queues
      let from_client := s.next_channel + 2
      let to_client := s.next_channel + 3
      match mapLookup s.vscode_client_queues connection_id_str with
      | some _ => none
      | none =>
        let client_queues' :=
          (connection_id_str,
            ({ from_websocket_tx := from_client, to_websocket_rx := to_client } : WebsocketQueues))
            :: s.vscode_client_queues
        let s' : AppState :=
          { vscode_connection_id := s.vscode_connection_id,
            vscode_ide_queues := ide_queues',
            vscode_client_queues := client_queues',
            next_channel := s.next_channel + 4 }
        some { response := .bridged ide_queues', state := s', spawned := true }

/-- Shared states reachable from the empty initial state by completed
(non-panicking) runs of the attach operation alone. -/
inductive Reachable : AppState → Prop where
  | init : Reachable AppState.initial
  | step {s : AppState} {id : String} {r : AttachResult} :
      Reachable s → vscode_ide_websocket id s = some r → Reachable r.state

/-!
Interleaved model of two concurrent attach attempts.

In the source, each statement of the form
`app_state.<field>.lock().unwrap().<op>(..)` acquires and releases one
mutex, so the in-use-set check (lines 58-63), the IDE-queue-map check
(lines 70-75), the IDE-queue-map insert (lines 88-99) and the
client-queue-map insert (lines 102-113) are four separate critical
sections.  Each such section is one atomic step of a task; channel
creation between them is task-local and is folded into the following
insert step.
-/

/-- Program counter of one attach task in the interleaved model: the next
critical section it will execute, or how it finished.  `panicked` is a
failed `assert!(... .insert(..).is_none())`. -/
inductive TaskPc where
  | check_in_use
  | check_queues
  | insert_ide
  | insert_client
  | done_rejected
  | done_resume
  | done_create
  | panicked
deriving DecidableEq

/-- One atomic step (one lock-protected section) of an attach task for
`id` against the shared state. -/
def taskStep (id : String) (s : AppState) (pc : TaskPc) : AppState × TaskPc :=
  match pc with
  | .check_in_use =>
    if setContains s.vscode_connection_id id then (s, .done_rejected)
    else (s, .check_queues)
  | .check_queues =>
    if (mapLookup s.vscode_ide_queues id).isSome then (s, .done_resume)
    else (s, .insert_ide)
  | .insert_ide =>
    match mapLookup s.vscode_ide_queues id with
    | some _ => (s, .panicked)
    | none =>
      ({ s with
         vscode_ide_queues :=
           (id, ({ from_websocket_tx := s.next_channel,
                   to_websocket_rx := s.next_channel + 1 } : WebsocketQueues))
             :: s.vscode_ide_queues,
         next_channel := s.next_channel + 2 }, .insert_client)
  | .insert_client =>
    match mapLookup s.vscode_client_queues id with
    | some _ => (s, .panicked)
    | none =>
      ({ s with
         vscode_client_queues :=
           (id, ({ from_websocket_tx := s.next_channel,
                   to_websocket_rx := s.next_channel + 1 } : WebsocketQueues))
             :: s.vscode_client_queues,
         next_channel := s.next_channel + 2 }, .done_create)
  | pc => (s, pc)

/-- Run two attach tasks (for ids `id0` and `id1`) under a schedule:
`true` steps task 0, `false` steps task 1. -/
def interleave (id0 id1 : String) (sched : List Bool) :
    AppState × TaskPc × TaskPc → AppState × TaskPc × TaskPc
  | st =>
    match sched with
    | [] => st
    | b :: rest =>
      let (s, p0, p1) := st
      if b then
        let (s', p0') := taskStep id0 s p0
        interleave id0 id1 rest (s', p0', p1)
      else
        let (s', p1') := taskStep id1 s p1
        interleave id0 id1 rest (s', p0, p1')

/-! Theorems about the handshake task. -/

/-- Splitting a string built from a two-part literal: any text of the form
`(a ++ b) ++ x` starts with `a`. -/
theorem append_split_head (a b x : String) : ∃ rest, (a ++ b) ++ x = a ++ rest :=
  ⟨b ++ x, String.append_assoc a b x⟩

/-- Claim C2: a first inbound message whose contents are not `Opened`
makes the handshake task send a `Result`, correlated to the received
message's id and whose text starts with "Unexpected message", followed by
an `EditorMessage` with id 0 and contents `Closed`, in that order, and
then terminate. -/
theorem c2_unexpected_first_message (m : EditorMessage) (launch : Except String Unit)
    (h : ∀ it : IdeType, m.message ≠ .Opened it) :
    ∃ text : String,
      (handshake_task (some m) launch).sent =
        [{ id := m.id, message := .Result text }, { id := 0, message := .Closed }] ∧
      (∃ rest : String, text = "Unexpected message" ++ rest) ∧
      (handshake_task (some m) launch).finish = .Terminated := by
  obtain ⟨i, c⟩ := m
  cases c with
  | Opened t => exact absurd rfl (h t)
  | ClientHtml s =>
    exact ⟨_, rfl, append_split_head "Unexpected message" " " _, rfl⟩
  | Result s =>
    exact ⟨_, rfl, append_split_head "Unexpected message" " " _, rfl⟩
  | Closed =>
    exact ⟨_, rfl, append_split_head "Unexpected message" " " _, rfl⟩
  | Update s =>
    exact ⟨_, rfl, append_split_head "Unexpected message" " " _, rfl⟩

/-- Witness for C2 at the concrete first message `Update` (the same
non-`Opened` message the repository's own test sends). -/
theorem c2_unexpected_first_message_witness :
    ∃ text : String,
      (handshake_task (some { id := 1, message := .Update "" }) (.ok ())).sent =
        [{ id := 1, message := .Result text }, { id := 0, message := .Closed }] ∧
      (∃ rest : String, text = "Unexpected message" ++ rest) ∧
      (handshake_task (some { id := 1, message := .Update "" }) (.ok ())).finish =
        .Terminated :=
  c2_unexpected_first_message { id := 1, message := .Update "" } (.ok ())
    (fun _ hc => EditorMessageContents.noConfusion hc)

/-- Claim C3: a first inbound message `Opened(VSCode, selfHosted = true)`
makes the handshake task send `Result("")` correlated to the opening
message's id, then `EditorMessage` with id 0 and contents `ClientHtml`,
in that order, and reach `Ready` without ever sending `Closed`. -/
theorem c3_opened_self_hosted (i : Nat) (launch : Except String Unit) :
    handshake_task (some { id := i, message := .Opened (.VSCode true) }) launch =
      { sent := [{ id := i, message := .Result "" },
                 { id := 0, message := .ClientHtml "testing" }],
        logs := [], finish := .Ready } ∧
    ∀ m ∈ (handshake_task (some { id := i, message := .Opened (.VSCode true) }) launch).sent,
      m.message ≠ .Closed := by
  refine ⟨rfl, ?_⟩
  intro m hm
  rcases hm with _ | ⟨_, hm⟩
  · intro hc; exact EditorMessageContents.noConfusion hc
  · rcases hm with _ | ⟨_, hm⟩
    · intro hc; exact EditorMessageContents.noConfusion hc
    · cases hm

/-- Claim C4: a first inbound message `Opened(VSCode, selfHosted = false)`
with a failing browser-launch collaborator makes the handshake task send
a `Result` whose text contains "Unable to open web browser", correlated
to the opening message's id, followed by `Closed`, and terminate; with a
succeeding launch it sends `Result("")` and reaches `Ready`. -/
theorem c4_opened_external_browser (i : Nat) (err : String) :
    (handshake_task (some { id := i, message := .Opened (.VSCode false) }) (.error err) =
      { sent := [{ id := i, message := .Result ("Unable to open web browser: " ++ err) },
                 { id := 0, message := .Closed }],
        logs := ["Unable to open web browser: " ++ err], finish := .Terminated } ∧
     (∃ pre post : String,
        "Unable to open web browser: " ++ err = pre ++ "Unable to open web browser" ++ post)) ∧
    handshake_task (some { id := i, message := .Opened (.VSCode false) }) (.ok ()) =
      { sent := [{ id := i, message := .Result "" }], logs := [], finish := .Ready } := by
  refine ⟨⟨rfl, "", ": " ++ err, ?_⟩, rfl⟩
  rw [← String.append_assoc]
  exact rfl

/-- Counterexample to claim C5 as stated: for the unsupported IDE type
`Other "Unknown"` the handshake task does send a further message after
the `Result` — a `Closed` message is also placed on the outbound queue. -/
theorem c5_counterexample_closed_follows :
    (handshake_task (some { id := 1, message := .Opened (.Other "Unknown") }) (.ok ())).sent =
      [{ id := 1, message := .Result "Invalid IDE type: Unknown" },
       { id := 0, message := .Closed }] ∧
    ∃ m ∈ (handshake_task
        (some { id := 1, message := .Opened (.Other "Unknown") }) (.ok ())).sent,
      m.message = .Closed := by
  decide

/-- Claim C5 (amended): a first inbound message `Opened(ideType)` with an
unsupported `ideType` makes the handshake task send a `Result` whose text
starts with "Invalid IDE type", correlated to the opening message's id,
followed by an `EditorMessage` with id 0 and contents `Closed`, and no
further messages; it then terminates. -/
theorem c5_invalid_ide_type (i : Nat) (name : String) (launch : Except String Unit) :
    handshake_task (some { id := i, message := .Opened (.Other name) }) launch =
      { sent := [{ id := i, message := .Result ("Invalid IDE type: " ++ name) },
                 { id := 0, message := .Closed }],
        logs := ["Invalid IDE type: " ++ name], finish := .Terminated } ∧
    ∃ rest : String, "Invalid IDE type: " ++ name = "Invalid IDE type" ++ rest :=
  ⟨rfl, append_split_head "Invalid IDE type" ": " name⟩

/-- Claim C9: if the IDE-side inbound queue is closed before any message
arrives, the handshake task logs the condition and terminates without
sending any message on the outbound queue. -/
theorem c9_channel_closed (launch : Except String Unit) :
    handshake_task none launch =
      { sent := [], logs := ["IDE websocket received no data."], finish := .Terminated } :=
  rfl

/-! Theorems about the attach operation. -/

/-- Branch equation: an id found in the in-use set is rejected with the
exact message from the source, and nothing else happens. -/
theorem attach_in_use {s : AppState} {id : String}
    (h : setContains s.vscode_connection_id id = true) :
    vscode_ide_websocket id s =
      some { response := .rejected ("Connection ID " ++ id ++ " already in use."),
             state := s, spawned := false } := by
  simp [vscode_ide_websocket, h]

/-- Branch equation: an id not in use whose IDE-side queue pair exists is
bridged to the existing map, with no mutation and no spawn. -/
theorem attach_resume {s : AppState} {id : String} {q : WebsocketQueues}
    (h1 : setContains s.vscode_connection_id id = false)
    (h2 : mapLookup s.vscode_ide_queues id = some q) :
    vscode_ide_websocket id s =
      some { response := .bridged s.vscode_ide_queues, state := s, spawned := false } := by
  simp [vscode_ide_websocket, h1, h2]

/-- Branch equation: an id absent everywhere takes the Create path —
fresh queue pairs are inserted into both maps, the handshake task is
spawned, and the transport is bridged to the updated IDE-side map. -/
theorem attach_create {s : AppState} {id : String}
    (h1 : setContains s.vscode_connection_id id = false)
    (h2 : mapLookup s.vscode_ide_queues id = none)
    (h3 : mapLookup s.vscode_client_queues id = none) :
    vscode_ide_websocket id s =
      some { response := .bridged
               ((id, ({ from_websocket_tx := s.next_channel,
                        to_websocket_rx := s.next_channel + 1 } : WebsocketQueues))
                 :: s.vscode_ide_queues),
             state :=
               { vscode_connection_id := s.vscode_connection_id,
                 vscode_ide_queues :=
                   (id, ({ from_websocket_tx := s.next_channel,
                           to_websocket_rx := s.next_channel + 1 } : WebsocketQueues))
                     :: s.vscode_ide_queues,
                 vscode_client_queues :=
                   (id, ({ from_websocket_tx := s.next_channel + 2,
                           to_websocket_rx := s.next_channel + 3 } : WebsocketQueues))
                     :: s.vscode_client_queues,
                 next_channel := s.next_channel + 4 },
             spawned := true } := by
  simp [vscode_ide_websocket, h1, h2, h3]

/-- Branch equation: if the client-side insert would find an occupied
slot, the `assert!` fails and the operation aborts (the `none` result). -/
theorem attach_client_assert {s : AppState} {id : String} {q : WebsocketQueues}
    (h1 : setContains s.vscode_connection_id id = false)
    (h2 : mapLookup s.vscode_ide_queues id = none)
    (h3 : mapLookup s.vscode_client_queues id = some q) :
    vscode_ide_websocket id s = none := by
  simp [vscode_ide_websocket, h1, h2, h3]

/-- Invariant of states reachable through the attach operation alone: the
in-use set stays empty (nothing in this operation inserts into it), and
every id with a client-side queue pair also has an IDE-side one (the two
are always inserted together). -/
theorem reachable_invariant {s : AppState} (h : Reachable s) :
    s.vscode_connection_id = [] ∧
    ∀ k, (mapLookup s.vscode_client_queues k).isSome = true →
      (mapLookup s.vscode_ide_queues k).isSome = true := by
  induction h with
  | init => exact ⟨rfl, fun k hk => by cases hk⟩
  | @step s id r hs heq ih =>
    by_cases h1 : setContains s.vscode_connection_id id = true
    · rw [attach_in_use h1] at heq
      obtain rfl : _ = r := Option.some.inj heq
      exact ih
    · replace h1 : setContains s.vscode_connection_id id = false :=
        Bool.eq_false_iff.mpr h1
      cases h2 : mapLookup s.vscode_ide_queues id with
      | some q =>
        rw [attach_resume h1 h2] at heq
        obtain rfl : _ = r := Option.some.inj heq
        exact ih
      | none =>
        cases h3 : mapLookup s.vscode_client_queues id with
        | some q =>
          rw [attach_client_assert h1 h2 h3] at heq
          exact Option.noConfusion heq
        | none =>
          rw [attach_create h1 h2 h3] at heq
          obtain rfl : _ = r := Option.some.inj heq
          refine ⟨ih.1, fun k hk => ?_⟩
          by_cases hid : id = k
          · simp [mapLookup, hid]
          · simp only [mapLookup, if_neg hid] at hk ⊢
            exact ih.2 k hk

/-- Claim C6: an id found in the in-use set is rejected with exactly the
message "Connection ID {id} already in use.", the shared state (queue-pair
maps and in-use set) is unchanged, and no handshake task is spawned. -/
theorem c6_conflict_rejection (id : String) (s : AppState)
    (h : setContains s.vscode_connection_id id = true) :
    vscode_ide_websocket id s =
      some { response := .rejected ("Connection ID " ++ id ++ " already in use."),
             state := s, spawned := false } :=
  attach_in_use h

/-- Witness for C6: the id "c" marked in use is rejected, nothing mutated. -/
theorem c6_conflict_rejection_witness :
    vscode_ide_websocket "c"
        { vscode_connection_id := ["c"], vscode_ide_queues := [],
          vscode_client_queues := [], next_channel := 0 } =
      some { response := .rejected "Connection ID c already in use.",
             state := { vscode_connection_id := ["c"], vscode_ide_queues := [],
                        vscode_client_queues := [], next_channel := 0 },
             spawned := false } :=
  c6_conflict_rejection "c" _ (by decide)

/-- Claim C7: an id not in the in-use set whose IDE-side queue pair
already exists is bridged to the existing IDE-side queue pair (the map
handed to `client_websocket` still holds that very pair at the id), no
second handshake task is spawned, and the shared state is unchanged. -/
theorem c7_resume_reattach (id : String) (s : AppState) (q : WebsocketQueues)
    (h1 : setContains s.vscode_connection_id id = false)
    (h2 : mapLookup s.vscode_ide_queues id = some q) :
    vscode_ide_websocket id s =
      some { response := .bridged s.vscode_ide_queues, state := s, spawned := false } ∧
    mapLookup s.vscode_ide_queues id = some q :=
  ⟨attach_resume h1 h2, h2⟩

/-- Witness for C7: re-attaching to an existing session for "c". -/
theorem c7_resume_reattach_witness :
    vscode_ide_websocket "c"
        { vscode_connection_id := [],
          vscode_ide_queues := [("c", { from_websocket_tx := 0, to_websocket_rx := 1 })],
          vscode_client_queues := [("c", { from_websocket_tx := 2, to_websocket_rx := 3 })],
          next_channel := 4 } =
      some { response := .bridged [("c", { from_websocket_tx := 0, to_websocket_rx := 1 })],
             state := { vscode_connection_id := [],
                        vscode_ide_queues :=
                          [("c", { from_websocket_tx := 0, to_websocket_rx := 1 })],
                        vscode_client_queues :=
                          [("c", { from_websocket_tx := 2, to_websocket_rx := 3 })],
                        next_channel := 4 },
             spawned := false } ∧
    mapLookup [("c", { from_websocket_tx := 0, to_websocket_rx := 1 })] "c" =
      some { from_websocket_tx := 0, to_websocket_rx := 1 } :=
  c7_resume_reattach "c" _ _ (by decide) (by decide)

/-- Claim C8: on the Create path of a reachable state — the id absent
from the in-use set and from the IDE-side queue-pair map when checked —
both inserts find empty slots, so the operation completes (the
assertion-failure abort, modelled by `none`, is not taken) with both
fresh queue pairs registered and the handshake task spawned. -/
theorem c8_create_asserts_hold (id : String) (s : AppState) (hr : Reachable s)
    (h1 : setContains s.vscode_connection_id id = false)
    (h2 : mapLookup s.vscode_ide_queues id = none) :
    vscode_ide_websocket id s =
      some { response := .bridged
               ((id, ({ from_websocket_tx := s.next_channel,
                        to_websocket_rx := s.next_channel + 1 } : WebsocketQueues))
                 :: s.vscode_ide_queues),
             state :=
               { vscode_connection_id := s.vscode_connection_id,
                 vscode_ide_queues :=
                   (id, ({ from_websocket_tx := s.next_channel,
                           to_websocket_rx := s.next_channel + 1 } : WebsocketQueues))
                     :: s.vscode_ide_queues,
                 vscode_client_queues :=
                   (id, ({ from_websocket_tx := s.next_channel + 2,
                           to_websocket_rx := s.next_channel + 3 } : WebsocketQueues))
                     :: s.vscode_client_queues,
                 next_channel := s.next_channel + 4 },
             spawned := true } := by
  have h3 : mapLookup s.vscode_client_queues id = none := by
    cases hc : mapLookup s.vscode_client_queues id with
    | none => rfl
    | some q =>
      have := (reachable_invariant hr).2 id (by rw [hc]; rfl)
      rw [h2] at this
      exact Bool.noConfusion this
  exact attach_create h1 h2 h3

/-- Witness for C8: the first attach for "c" on the initial state. -/
theorem c8_create_asserts_hold_witness :
    vscode_ide_websocket "c" AppState.initial =
      some { response := .bridged [("c", { from_websocket_tx := 0, to_websocket_rx := 1 })],
             state := { vscode_connection_id := [],
                        vscode_ide_queues :=
                          [("c", { from_websocket_tx := 0, to_websocket_rx := 1 })],
                        vscode_client_queues :=
                          [("c", { from_websocket_tx := 2, to_websocket_rx := 3 })],
                        next_channel := 4 },
             spawned := true } :=
  c8_create_asserts_hold "c" AppState.initial Reachable.init (by decide) (by decide)

/-- Claim C10: the attach operation never adds to the in-use set; after a
completed Create-path attach, a second attach for the same id takes the
Resume path (existing map bridged, nothing spawned, nothing mutated); and
from any state reachable through this operation alone the Conflict
rejection is unreachable. -/
theorem c10_conflict_unreachable (id : String) (s : AppState) (r : AttachResult)
    (heq : vscode_ide_websocket id s = some r) :
    r.state.vscode_connection_id = s.vscode_connection_id ∧
    (r.spawned = true →
      vscode_ide_websocket id r.state =
        some { response := .bridged r.state.vscode_ide_queues,
               state := r.state, spawned := false }) ∧
    (Reachable s → ∀ msg, r.response ≠ .rejected msg) := by
  by_cases h1 : setContains s.vscode_connection_id id = true
  · rw [attach_in_use h1] at heq
    obtain rfl : _ = r := Option.some.inj heq
    refine ⟨rfl, fun hsp => Bool.noConfusion hsp, fun hr msg _ => ?_⟩
    rw [(reachable_invariant hr).1] at h1
    exact Bool.noConfusion h1
  · replace h1 : setContains s.vscode_connection_id id = false :=
      Bool.eq_false_iff.mpr h1
    cases h2 : mapLookup s.vscode_ide_queues id with
    | some q =>
      rw [attach_resume h1 h2] at heq
      obtain rfl : _ = r := Option.some.inj heq
      exact ⟨rfl, fun hsp => Bool.noConfusion hsp,
             fun _ msg hc => AttachResponse.noConfusion hc⟩
    | none =>
      cases h3 : mapLookup s.vscode_client_queues id with
      | some q =>
        rw [attach_client_assert h1 h2 h3] at heq
        exact Option.noConfusion heq
      | none =>
        rw [attach_create h1 h2 h3] at heq
        obtain rfl : _ = r := Option.some.inj heq
        refine ⟨rfl, fun _ => ?_, fun _ msg hc => AttachResponse.noConfusion hc⟩
        exact @attach_resume _ _
          { from_websocket_tx := s.next_channel, to_websocket_rx := s.next_channel + 1 }
          h1 (by simp [mapLookup])

/-- Witness for C10: the Create-path attach for "c" on the initial state,
followed by the Resume-path re-attach. -/
theorem c10_conflict_unreachable_witness :
    (({ response := .bridged [("c", { from_websocket_tx := 0, to_websocket_rx := 1 })],
        state := { vscode_connection_id := [],
                   vscode_ide_queues :=
                     [("c", { from_websocket_tx := 0, to_websocket_rx := 1 })],
                   vscode_client_queues :=
                     [("c", { from_websocket_tx := 2, to_websocket_rx := 3 })],
                   next_channel := 4 },
        spawned := true } : AttachResult).state.vscode_connection_id =
      AppState.initial.vscode_connection_id) ∧
    (({ response := .bridged [("c", { from_websocket_tx := 0, to_websocket_rx := 1 })],
        state := { vscode_connection_id := [],
                   vscode_ide_queues :=
                     [("c", { from_websocket_tx := 0, to_websocket_rx := 1 })],
                   vscode_client_queues :=
                     [("c", { from_websocket_tx := 2, to_websocket_rx := 3 })],
                   next_channel := 4 },
        spawned := true } : AttachResult).spawned = true →
      vscode_ide_websocket "c"
          { vscode_connection_id := [],
            vscode_ide_queues :=
              [("c", { from_websocket_tx := 0, to_websocket_rx := 1 })],
            vscode_client_queues :=
              [("c", { from_websocket_tx := 2, to_websocket_rx := 3 })],
            next_channel := 4 } =
        some { response := .bridged [("c", { from_websocket_tx := 0, to_websocket_rx := 1 })],
               state := { vscode_connection_id := [],
                          vscode_ide_queues :=
                            [("c", { from_websocket_tx := 0, to_websocket_rx := 1 })],
                          vscode_client_queues :=
                            [("c", { from_websocket_tx := 2, to_websocket_rx := 3 })],
                          next_channel := 4 },
               spawned := false }) ∧
    (Reachable AppState.initial →
      ∀ msg, (({ response := .bridged
                   [("c", { from_websocket_tx := 0, to_websocket_rx := 1 })],
                 state := { vscode_connection_id := [],
                            vscode_ide_queues :=
                              [("c", { from_websocket_tx := 0, to_websocket_rx := 1 })],
                            vscode_client_queues :=
                              [("c", { from_websocket_tx := 2, to_websocket_rx := 3 })],
                            next_channel := 4 },
                 spawned := true } : AttachResult).response ≠ .rejected msg)) :=
  c10_conflict_unreachable "c" AppState.initial
    { response := .bridged [("c", { from_websocket_tx := 0, to_websocket_rx := 1 })],
      state := { vscode_connection_id := [],
                 vscode_ide_queues :=
                   [("c", { from_websocket_tx := 0, to_websocket_rx := 1 })],
                 vscode_client_queues :=
                   [("c", { from_websocket_tx := 2, to_websocket_rx := 3 })],
                 next_channel := 4 },
      spawned := true }
    (by decide)

/-! Theorem about the interleaved model (claim C1). -/

/-- Claim C1 fails on the code: the in-use-set check, the queue-map check
and the two inserts are four separate critical sections, not one.  Under
the alternating schedule, two attach attempts for the same id "c" both
pass both checks — after four steps both tasks stand at the IDE-side
insert, i.e. both have observed the Create outcome — and two steps later
the second task's `assert!(... .insert(..).is_none())` fails (`panicked`)
while the first proceeds to the client-side insert. -/
theorem c1_race_both_observe_create :
    (interleave "c" "c" [true, false, true, false]
        (AppState.initial, .check_in_use, .check_in_use)).2 =
      (.insert_ide, .insert_ide) ∧
    (interleave "c" "c" [true, false, true, false, true, false]
        (AppState.initial, .check_in_use, .check_in_use)).2 =
      (.insert_client, .panicked) := by
  decide

end VSCodeWs
